import Mathlib

/-!
Shallow embedding of the crop-yield prediction and scoring pipeline
(models/crop_models.py, data/sample_agricultural_data.py,
utils/data_processor.py, services/recommendation_engine.py), with proofs
of the behavioural claims about it.

Numeric values are modelled as rationals; the per-request random draws of
the Python code (np.random.uniform, np.random.normal) are passed in as
explicit parameters, and the fitted scikit-learn regressors, which cannot
be translated, are abstracted as function parameters.  Everything else is
translated directly from the source.
-/

set_option linter.unusedVariables false
set_option linter.unnecessarySeqFocus false

namespace CropYield

/-- The input_data dictionary handed to the predictor: every key may be
absent (Python dict membership / dict.get). -/
structure InputData where
  ph_level : Option ℚ
  organic_matter : Option ℚ
  nitrogen : Option ℚ
  phosphorus : Option ℚ
  potassium : Option ℚ
  temperature : Option ℚ
  rainfall : Option ℚ
  humidity : Option ℚ
deriving DecidableEq

/-- One factor of the loop in CropYieldPredictor._calculate_confidence
(crop_models.py lines 143-155): 1.0 inside the optimal range, otherwise
max(0, 1 - relative distance outside the range); an absent key adds
nothing to the score. -/
def confFactor (lo hi : ℚ) : Option ℚ → ℚ
  | none => 0
  | some v =>
      if lo ≤ v ∧ v ≤ hi then 1
      else if v < lo then max 0 (1 - (lo - v) / lo)
      else max 0 (1 - (v - hi) / hi)

/-- CropYieldPredictor._calculate_confidence (crop_models.py lines
125-163).  The optimal_ranges table is inlined factor by factor, in the
dict order of the source; the draw np.random.uniform(0.05, 0.15) is the
explicit parameter u. -/
def calculate_confidence (x : InputData) (u : ℚ) : ℚ :=
  let score :=
    confFactor 6 7 x.ph_level +
    confFactor 2.5 5 x.organic_matter +
    confFactor 20 50 x.nitrogen +
    confFactor 15 40 x.phosphorus +
    confFactor 100 250 x.potassium +
    confFactor 15 30 x.temperature +
    confFactor 500 1500 x.rainfall +
    confFactor 50 80 x.humidity
  let base := score / 8
  min 0.95 (max 0.3 (base - u))

/-- C1: for every input feature vector and every value of the random
uncertainty draw in [0.05, 0.15], the confidence returned by
_calculate_confidence satisfies 0.30 <= confidence <= 0.95. -/
theorem confidence_bounds (x : InputData) (u : ℚ)
    (hu1 : 0.05 ≤ u) (hu2 : u ≤ 0.15) :
    0.3 ≤ calculate_confidence x u ∧ calculate_confidence x u ≤ 0.95 := by
  unfold calculate_confidence
  refine ⟨le_min (by norm_num) (le_max_left _ _), min_le_left _ _⟩

/-- Witness for C1 at a fully populated feature vector and draw 0.1. -/
theorem confidence_bounds_witness :
    (0.05 ≤ (0.1 : ℚ)) ∧ ((0.1 : ℚ) ≤ 0.15) ∧
    (0.3 ≤ calculate_confidence
        ⟨some 6.5, some 3, some 25, some 20, some 150,
         some 22, some 800, some 65⟩ 0.1 ∧
      calculate_confidence
        ⟨some 6.5, some 3, some 25, some 20, some 150,
         some 22, some 800, some 65⟩ 0.1 ≤ 0.95) :=
  ⟨by norm_num, by norm_num,
    confidence_bounds _ _ (by norm_num) (by norm_num)⟩

/-- Python str.join with a separator, as used for "; ".join(risk_factors). -/
def joinSep (sep : String) : List String → String
  | [] => ""
  | [s] => s
  | s :: rest => s ++ sep ++ joinSep sep rest

/-! CropYieldPredictor._assess_risk_factors (crop_models.py lines
165-230).  Each threshold block of the source appends a factor string and
adds 1 or 2 points in the same branch; the blocks are independent, so the
accumulated score is the sum of one contribution per parameter and the
factor list is the concatenation of one sublist per parameter, in source
order. -/

/-- pH block (lines 172-178): score contribution. -/
def phRiskScore (v : ℚ) : ℕ :=
  if v < 5.5 ∨ 8 < v then 2 else if v < 6 ∨ 7.5 < v then 1 else 0

/-- pH block (lines 172-178): factor strings. -/
def phRiskFactors (v : ℚ) : List String :=
  if v < 5.5 ∨ 8 < v then ["Extreme pH levels may affect nutrient availability"]
  else if v < 6 ∨ 7.5 < v then ["Suboptimal pH levels may reduce yield"]
  else []

/-- Temperature block (lines 181-187): score contribution. -/
def tempRiskScore (v : ℚ) : ℕ :=
  if v < 10 ∨ 35 < v then 2 else if v < 15 ∨ 30 < v then 1 else 0

/-- Temperature block (lines 181-187): factor strings. -/
def tempRiskFactors (v : ℚ) : List String :=
  if v < 10 ∨ 35 < v then ["Extreme temperatures may stress crops"]
  else if v < 15 ∨ 30 < v then ["Temperature outside optimal range"]
  else []

/-- Rainfall block (lines 190-199): score contribution. -/
def rainRiskScore (v : ℚ) : ℕ :=
  if v < 300 then 2
  else if 2000 < v then 2
  else if v < 500 ∨ 1500 < v then 1
  else 0

/-- Rainfall block (lines 190-199): factor strings. -/
def rainRiskFactors (v : ℚ) : List String :=
  if v < 300 then ["Insufficient rainfall may require additional irrigation"]
  else if 2000 < v then ["Excessive rainfall may cause waterlogging"]
  else if v < 500 ∨ 1500 < v then ["Rainfall outside optimal range"]
  else []

/-- Nitrogen block (lines 206-208): score contribution. -/
def nitrogenRiskScore (v : ℚ) : ℕ := if v < 15 then 1 else 0

/-- Nitrogen block (lines 206-208): factor strings. -/
def nitrogenRiskFactors (v : ℚ) : List String :=
  if v < 15 then ["Low nitrogen levels may limit growth"] else []

/-- Phosphorus block (lines 209-211): score contribution. -/
def phosphorusRiskScore (v : ℚ) : ℕ := if v < 10 then 1 else 0

/-- Phosphorus block (lines 209-211): factor strings. -/
def phosphorusRiskFactors (v : ℚ) : List String :=
  if v < 10 then ["Low phosphorus levels may affect root development"] else []

/-- Potassium block (lines 212-214): score contribution. -/
def potassiumRiskScore (v : ℚ) : ℕ := if v < 80 then 1 else 0

/-- Potassium block (lines 212-214): factor strings. -/
def potassiumRiskFactors (v : ℚ) : List String :=
  if v < 80 then ["Low potassium levels may reduce disease resistance"] else []

/-- The accumulated integer risk score of _assess_risk_factors, with the
dict .get defaults of the source (ph 7.0, temperature 20, rainfall 800,
nitrogen 25, phosphorus 20, potassium 150). -/
def risk_score (x : InputData) : ℕ :=
  phRiskScore (x.ph_level.getD 7) +
  tempRiskScore (x.temperature.getD 20) +
  rainRiskScore (x.rainfall.getD 800) +
  nitrogenRiskScore (x.nitrogen.getD 25) +
  phosphorusRiskScore (x.phosphorus.getD 20) +
  potassiumRiskScore (x.potassium.getD 150)

/-- The risk_factors list accumulated by _assess_risk_factors, in source
order. -/
def riskFactorsList (x : InputData) : List String :=
  phRiskFactors (x.ph_level.getD 7) ++
  tempRiskFactors (x.temperature.getD 20) ++
  rainRiskFactors (x.rainfall.getD 800) ++
  nitrogenRiskFactors (x.nitrogen.getD 25) ++
  phosphorusRiskFactors (x.phosphorus.getD 20) ++
  potassiumRiskFactors (x.potassium.getD 150)

/-- The record returned by _assess_risk_factors. -/
structure RiskAssessment where
  level : String
  factors : String
deriving DecidableEq

/-- Translation of _assess_risk_factors (crop_models.py lines 165-230): maps the score
to a level (>= 4 High, >= 2 Medium, else Low), substitutes the fixed
message when no factor was recorded, and joins the factors with a
semicolon. -/
def assess_risk_factors (x : InputData) : RiskAssessment :=
  let score := risk_score x
  let factors := riskFactorsList x
  { level := if 4 ≤ score then "High" else if 2 ≤ score then "Medium" else "Low"
    factors := joinSep "; "
      (if factors = [] then ["No significant risk factors identified"] else factors) }

/-- The C2 scenario input: temperature 40 and humidity 30 supplied, every
other key absent, so the source dict defaults apply to the rest. -/
def c2Input : InputData :=
  { ph_level := none, organic_matter := none, nitrogen := none,
    phosphorus := none, potassium := none, temperature := some 40,
    rainfall := none, humidity := some 30 }

/-- Evaluation of the factor list on the C2 scenario input. -/
lemma c2_factors_eval :
    riskFactorsList c2Input = ["Extreme temperatures may stress crops"] := by
  norm_num [riskFactorsList, c2Input, phRiskFactors, tempRiskFactors,
    rainRiskFactors, nitrogenRiskFactors, phosphorusRiskFactors,
    potassiumRiskFactors]

/-- Evaluation of the accumulated score on the C2 scenario input. -/
lemma c2_score_eval : risk_score c2Input = 2 := by
  norm_num [risk_score, c2Input, phRiskScore, tempRiskScore, rainRiskScore,
    nitrogenRiskScore, phosphorusRiskScore, potassiumRiskScore]

/-- Evaluation of the full assessment on the C2 scenario input. -/
lemma c2_assess_eval :
    assess_risk_factors c2Input =
      { level := "Medium", factors := "Extreme temperatures may stress crops" } := by
  simp only [assess_risk_factors, c2_score_eval, c2_factors_eval]
  norm_num [joinSep]

/-- C2 fails on the code: in the temperature=40, humidity=30 scenario the
assessment is not High with at least two factors.  Humidity is never read
by _assess_risk_factors and the default rainfall 800 crosses no threshold,
so only the extreme-temperature branch fires (score 2). -/
theorem risk_scenario_counterexample :
    ¬((assess_risk_factors c2Input).level = "High" ∧
      2 ≤ (riskFactorsList c2Input).length) := by
  rw [c2_assess_eval, c2_factors_eval]
  rintro ⟨hlev, hlen⟩
  · exact absurd hlev (by decide)

/-- C2 amended: with temperature=40 and humidity=30 supplied and all other
features at their documented defaults, the assessment is Medium with
exactly one risk factor string, the extreme-temperature one. -/
theorem risk_scenario_amended :
    assess_risk_factors c2Input =
      { level := "Medium", factors := "Extreme temperatures may stress crops" } ∧
    riskFactorsList c2Input = ["Extreme temperatures may stress crops"] :=
  ⟨c2_assess_eval, c2_factors_eval⟩

/-! C6: widening a single parameter of _assess_risk_factors away from its
optimal range (the fixed global optima of the confidence table) never
decreases the accumulated risk score. -/

/-- The six parameters read by _assess_risk_factors. -/
inductive RiskParam | ph | temp | rain | nitrogen | phosphorus | potassium
deriving DecidableEq

/-- Overwrite one parameter of the input dict, leaving the rest alone. -/
def setRiskParam : RiskParam → ℚ → InputData → InputData
  | .ph, v, x => { x with ph_level := some v }
  | .temp, v, x => { x with temperature := some v }
  | .rain, v, x => { x with rainfall := some v }
  | .nitrogen, v, x => { x with nitrogen := some v }
  | .phosphorus, v, x => { x with phosphorus := some v }
  | .potassium, v, x => { x with potassium := some v }

/-- The declared global optimal range of each risk parameter
(crop_models.py lines 129-138). -/
def riskOptRange : RiskParam → ℚ × ℚ
  | .ph => (6, 7)
  | .temp => (15, 30)
  | .rain => (500, 1500)
  | .nitrogen => (20, 50)
  | .phosphorus => (15, 40)
  | .potassium => (100, 250)

lemma phRiskScore_mono_below (v1 v2 : ℚ) (h21 : v2 ≤ v1) (h1 : v1 ≤ 6) :
    phRiskScore v1 ≤ phRiskScore v2 := by
  unfold phRiskScore
  split_ifs <;> try omega
  all_goals (exfalso; push_neg at *; casesm* _ ∨ _, _ ∧ _ <;> linarith)

lemma phRiskScore_mono_above (v1 v2 : ℚ) (h1 : 7 ≤ v1) (h12 : v1 ≤ v2) :
    phRiskScore v1 ≤ phRiskScore v2 := by
  unfold phRiskScore
  split_ifs <;> try omega
  all_goals (exfalso; push_neg at *; casesm* _ ∨ _, _ ∧ _ <;> linarith)

lemma tempRiskScore_mono_below (v1 v2 : ℚ) (h21 : v2 ≤ v1) (h1 : v1 ≤ 15) :
    tempRiskScore v1 ≤ tempRiskScore v2 := by
  unfold tempRiskScore
  split_ifs <;> try omega
  all_goals (exfalso; push_neg at *; casesm* _ ∨ _, _ ∧ _ <;> linarith)

lemma tempRiskScore_mono_above (v1 v2 : ℚ) (h1 : 30 ≤ v1) (h12 : v1 ≤ v2) :
    tempRiskScore v1 ≤ tempRiskScore v2 := by
  unfold tempRiskScore
  split_ifs <;> try omega
  all_goals (exfalso; push_neg at *; casesm* _ ∨ _, _ ∧ _ <;> linarith)

lemma rainRiskScore_mono_below (v1 v2 : ℚ) (h21 : v2 ≤ v1) (h1 : v1 ≤ 500) :
    rainRiskScore v1 ≤ rainRiskScore v2 := by
  unfold rainRiskScore
  split_ifs <;> try omega
  all_goals (exfalso; push_neg at *; casesm* _ ∨ _, _ ∧ _ <;> linarith)

lemma rainRiskScore_mono_above (v1 v2 : ℚ) (h1 : 1500 ≤ v1) (h12 : v1 ≤ v2) :
    rainRiskScore v1 ≤ rainRiskScore v2 := by
  unfold rainRiskScore
  split_ifs <;> try omega
  all_goals (exfalso; push_neg at *; casesm* _ ∨ _, _ ∧ _ <;> linarith)

lemma nitrogenRiskScore_mono_below (v1 v2 : ℚ) (h21 : v2 ≤ v1) (h1 : v1 ≤ 20) :
    nitrogenRiskScore v1 ≤ nitrogenRiskScore v2 := by
  unfold nitrogenRiskScore
  split_ifs <;> try omega
  all_goals (exfalso; push_neg at *; linarith)

lemma nitrogenRiskScore_mono_above (v1 v2 : ℚ) (h1 : 50 ≤ v1) (h12 : v1 ≤ v2) :
    nitrogenRiskScore v1 ≤ nitrogenRiskScore v2 := by
  unfold nitrogenRiskScore
  split_ifs <;> try omega
  all_goals (exfalso; push_neg at *; linarith)

lemma phosphorusRiskScore_mono_below (v1 v2 : ℚ) (h21 : v2 ≤ v1) (h1 : v1 ≤ 15) :
    phosphorusRiskScore v1 ≤ phosphorusRiskScore v2 := by
  unfold phosphorusRiskScore
  split_ifs <;> try omega
  all_goals (exfalso; push_neg at *; linarith)

lemma phosphorusRiskScore_mono_above (v1 v2 : ℚ) (h1 : 40 ≤ v1) (h12 : v1 ≤ v2) :
    phosphorusRiskScore v1 ≤ phosphorusRiskScore v2 := by
  unfold phosphorusRiskScore
  split_ifs <;> try omega
  all_goals (exfalso; push_neg at *; linarith)

lemma potassiumRiskScore_mono_below (v1 v2 : ℚ) (h21 : v2 ≤ v1) (h1 : v1 ≤ 100) :
    potassiumRiskScore v1 ≤ potassiumRiskScore v2 := by
  unfold potassiumRiskScore
  split_ifs <;> try omega
  all_goals (exfalso; push_neg at *; linarith)

lemma potassiumRiskScore_mono_above (v1 v2 : ℚ) (h1 : 250 ≤ v1) (h12 : v1 ≤ v2) :
    potassiumRiskScore v1 ≤ potassiumRiskScore v2 := by
  unfold potassiumRiskScore
  split_ifs <;> try omega
  all_goals (exfalso; push_neg at *; linarith)

/-- C6: for every input and every single risk parameter, moving that
parameter further from its optimal range on the same side (all other
inputs fixed) never decreases the accumulated risk score.  v1 is the
nearer value, v2 the one at least as far on the same side. -/
theorem risk_score_monotone (x : InputData) (p : RiskParam) (v1 v2 : ℚ)
    (h : (v2 ≤ v1 ∧ v1 ≤ (riskOptRange p).1) ∨
         ((riskOptRange p).2 ≤ v1 ∧ v1 ≤ v2)) :
    risk_score (setRiskParam p v1 x) ≤ risk_score (setRiskParam p v2 x) := by
  cases p with
  | ph =>
    simp only [setRiskParam, risk_score, riskOptRange, Option.getD_some] at h ⊢
    rcases h with ⟨h21, h1⟩ | ⟨h1, h12⟩
    · have := phRiskScore_mono_below v1 v2 h21 h1; omega
    · have := phRiskScore_mono_above v1 v2 h1 h12; omega
  | temp =>
    simp only [setRiskParam, risk_score, riskOptRange, Option.getD_some] at h ⊢
    rcases h with ⟨h21, h1⟩ | ⟨h1, h12⟩
    · have := tempRiskScore_mono_below v1 v2 h21 h1; omega
    · have := tempRiskScore_mono_above v1 v2 h1 h12; omega
  | rain =>
    simp only [setRiskParam, risk_score, riskOptRange, Option.getD_some] at h ⊢
    rcases h with ⟨h21, h1⟩ | ⟨h1, h12⟩
    · have := rainRiskScore_mono_below v1 v2 h21 h1; omega
    · have := rainRiskScore_mono_above v1 v2 h1 h12; omega
  | nitrogen =>
    simp only [setRiskParam, risk_score, riskOptRange, Option.getD_some] at h ⊢
    rcases h with ⟨h21, h1⟩ | ⟨h1, h12⟩
    · have := nitrogenRiskScore_mono_below v1 v2 h21 h1; omega
    · have := nitrogenRiskScore_mono_above v1 v2 h1 h12; omega
  | phosphorus =>
    simp only [setRiskParam, risk_score, riskOptRange, Option.getD_some] at h ⊢
    rcases h with ⟨h21, h1⟩ | ⟨h1, h12⟩
    · have := phosphorusRiskScore_mono_below v1 v2 h21 h1; omega
    · have := phosphorusRiskScore_mono_above v1 v2 h1 h12; omega
  | potassium =>
    simp only [setRiskParam, risk_score, riskOptRange, Option.getD_some] at h ⊢
    rcases h with ⟨h21, h1⟩ | ⟨h1, h12⟩
    · have := potassiumRiskScore_mono_below v1 v2 h21 h1; omega
    · have := potassiumRiskScore_mono_above v1 v2 h1 h12; omega

/-- The all-absent input dict: every parameter takes its source default. -/
def emptyInput : InputData :=
  { ph_level := none, organic_matter := none, nitrogen := none,
    phosphorus := none, potassium := none, temperature := none,
    rainfall := none, humidity := none }

/-- Witness for C6: temperature moved from 31 to 36, both above the
optimal range, does not decrease the risk score. -/
theorem risk_score_monotone_witness :
    ((riskOptRange .temp).2 ≤ (31 : ℚ) ∧ (31 : ℚ) ≤ 36) ∧
    risk_score (setRiskParam .temp 31 emptyInput) ≤
      risk_score (setRiskParam .temp 36 emptyInput) :=
  ⟨⟨by norm_num [riskOptRange], by norm_num⟩,
    risk_score_monotone emptyInput .temp 31 36
      (Or.inr ⟨by norm_num [riskOptRange], by norm_num⟩)⟩

/-! C9: the factors field of the assessment is always a non-empty string,
and a zero risk score yields exactly the fixed message and level Low. -/

/-- A string of nonzero length is not the empty string. -/
lemma string_ne_empty_of_length (s : String) (h : s.length ≠ 0) : s ≠ "" := by
  intro hs
  rw [hs] at h
  exact h rfl

/-- Joining a non-empty list of non-empty strings is non-empty. -/
lemma joinSep_ne_empty (sep : String) (l : List String) (hl : l ≠ [])
    (hs : ∀ s ∈ l, s ≠ "") : joinSep sep l ≠ "" := by
  match l with
  | [s] => simpa [joinSep] using hs s (by simp)
  | s :: t :: rest =>
    have h1 : s ≠ "" := hs s (by simp)
    have h1l : s.length ≠ 0 := by
      intro h0
      apply h1
      cases s with
      | mk data =>
        simp [String.length] at h0
        simp [h0]
    apply string_ne_empty_of_length
    show (s ++ sep ++ joinSep sep (t :: rest)).length ≠ 0
    simp [String.length_append]
    omega

lemma phRiskFactors_nil_iff (v : ℚ) :
    phRiskFactors v = [] ↔ phRiskScore v = 0 := by
  unfold phRiskFactors phRiskScore; split_ifs <;> simp

lemma tempRiskFactors_nil_iff (v : ℚ) :
    tempRiskFactors v = [] ↔ tempRiskScore v = 0 := by
  unfold tempRiskFactors tempRiskScore; split_ifs <;> simp

lemma rainRiskFactors_nil_iff (v : ℚ) :
    rainRiskFactors v = [] ↔ rainRiskScore v = 0 := by
  unfold rainRiskFactors rainRiskScore; split_ifs <;> simp

lemma nitrogenRiskFactors_nil_iff (v : ℚ) :
    nitrogenRiskFactors v = [] ↔ nitrogenRiskScore v = 0 := by
  unfold nitrogenRiskFactors nitrogenRiskScore; split_ifs <;> simp

lemma phosphorusRiskFactors_nil_iff (v : ℚ) :
    phosphorusRiskFactors v = [] ↔ phosphorusRiskScore v = 0 := by
  unfold phosphorusRiskFactors phosphorusRiskScore; split_ifs <;> simp

lemma potassiumRiskFactors_nil_iff (v : ℚ) :
    potassiumRiskFactors v = [] ↔ potassiumRiskScore v = 0 := by
  unfold potassiumRiskFactors potassiumRiskScore; split_ifs <;> simp

/-- Every factor string the assessor can record is non-empty. -/
lemma mem_riskFactorsList_ne (x : InputData) :
    ∀ s ∈ riskFactorsList x, s ≠ "" := by
  intro s hs
  unfold riskFactorsList at hs
  simp only [List.mem_append] at hs
  rcases hs with ((((h | h) | h) | h) | h) | h <;>
    revert h <;>
    first
      | (unfold phRiskFactors; split_ifs <;> simp <;> rintro rfl <;> decide)
      | (unfold tempRiskFactors; split_ifs <;> simp <;> rintro rfl <;> decide)
      | (unfold rainRiskFactors; split_ifs <;> simp <;> rintro rfl <;> decide)
      | (unfold nitrogenRiskFactors; split_ifs <;> simp <;> rintro rfl <;> decide)
      | (unfold phosphorusRiskFactors; split_ifs <;> simp <;> rintro rfl <;> decide)
      | (unfold potassiumRiskFactors; split_ifs <;> simp <;> rintro rfl <;> decide)

/-- A zero accumulated score means no factor was recorded. -/
lemma riskFactorsList_nil_of_score (x : InputData) (h : risk_score x = 0) :
    riskFactorsList x = [] := by
  unfold risk_score at h
  have h1 : phRiskScore (x.ph_level.getD 7) = 0 := by omega
  have h2 : tempRiskScore (x.temperature.getD 20) = 0 := by omega
  have h3 : rainRiskScore (x.rainfall.getD 800) = 0 := by omega
  have h4 : nitrogenRiskScore (x.nitrogen.getD 25) = 0 := by omega
  have h5 : phosphorusRiskScore (x.phosphorus.getD 20) = 0 := by omega
  have h6 : potassiumRiskScore (x.potassium.getD 150) = 0 := by omega
  unfold riskFactorsList
  rw [(phRiskFactors_nil_iff _).mpr h1, (tempRiskFactors_nil_iff _).mpr h2,
    (rainRiskFactors_nil_iff _).mpr h3, (nitrogenRiskFactors_nil_iff _).mpr h4,
    (phosphorusRiskFactors_nil_iff _).mpr h5,
    (potassiumRiskFactors_nil_iff _).mpr h6]
  simp

/-- C9: the factors field of the risk assessment is always a non-empty
string; when no threshold is crossed (score 0) it is exactly the fixed
no-risk message and the level is Low. -/
theorem risk_factors_nonempty (x : InputData) :
    (assess_risk_factors x).factors ≠ "" ∧
    (risk_score x = 0 →
      (assess_risk_factors x).factors = "No significant risk factors identified" ∧
      (assess_risk_factors x).level = "Low") := by
  constructor
  · by_cases hnil : riskFactorsList x = []
    · simp [assess_risk_factors, hnil, joinSep]
    · have : (assess_risk_factors x).factors = joinSep "; " (riskFactorsList x) := by
        simp [assess_risk_factors, hnil]
      rw [this]
      exact joinSep_ne_empty _ _ hnil (mem_riskFactorsList_ne x)
  · intro h0
    have hnil := riskFactorsList_nil_of_score x h0
    constructor
    · simp [assess_risk_factors, hnil, joinSep]
    · simp [assess_risk_factors, h0]

/-- Witness for C9: the all-default input crosses no threshold. -/
theorem risk_factors_nonempty_witness :
    risk_score emptyInput = 0 ∧
    (assess_risk_factors emptyInput).factors =
      "No significant risk factors identified" ∧
    (assess_risk_factors emptyInput).level = "Low" := by
  have h0 : risk_score emptyInput = 0 := by
    norm_num [risk_score, emptyInput, phRiskScore, tempRiskScore,
      rainRiskScore, nitrogenRiskScore, phosphorusRiskScore,
      potassiumRiskScore]
  exact ⟨h0, (risk_factors_nonempty emptyInput).2 h0⟩

/-! Synthetic data generator: sample_agricultural_data.py. -/

/-- The four supported crop types. -/
inductive Crop | Wheat | Corn | Rice | Soybeans
deriving DecidableEq

/-- Lookup of a crop-type string in the four-entry tables
(models dict, crop_soil_preferences, crop_data all share these keys). -/
def parseCrop (s : String) : Option Crop :=
  if s = "Wheat" then some .Wheat
  else if s = "Corn" then some .Corn
  else if s = "Rice" then some .Rice
  else if s = "Soybeans" then some .Soybeans
  else none

/-- base_yield of the crop_parameters table (lines 38-87). -/
def base_yield : Crop → ℚ
  | .Wheat => 4.5 | .Corn => 7.5 | .Rice => 5.8 | .Soybeans => 3.2

/-- optimal_ph table of _calculate_realistic_yield (lines 155-160). -/
def optimal_ph : Crop → ℚ
  | .Wheat => 6.5 | .Corn => 6.2 | .Rice => 5.8 | .Soybeans => 6.8

/-- optimal_nutrients N column (lines 171-176). -/
def optimalN : Crop → ℚ
  | .Wheat => 35 | .Corn => 50 | .Rice => 30 | .Soybeans => 20

/-- optimal_nutrients P column (lines 171-176). -/
def optimalP : Crop → ℚ
  | .Wheat => 25 | .Corn => 30 | .Rice => 20 | .Soybeans => 25

/-- optimal_nutrients K column (lines 171-176). -/
def optimalK : Crop → ℚ
  | .Wheat => 150 | .Corn => 180 | .Rice => 130 | .Soybeans => 160

/-- optimal_temp table (lines 189-194). -/
def optimal_temp : Crop → ℚ
  | .Wheat => 20 | .Corn => 25 | .Rice => 30 | .Soybeans => 23

/-- optimal_rainfall table (lines 202-207). -/
def optimal_rainfall : Crop → ℚ
  | .Wheat => 600 | .Corn => 900 | .Rice => 1500 | .Soybeans => 750

/-- optimal_humidity table (lines 220-225). -/
def optimal_humidity : Crop → ℚ
  | .Wheat => 60 | .Corn => 70 | .Rice => 80 | .Soybeans => 65

/-- Translation of _calculate_realistic_yield (sample_agricultural_data.py lines
148-246), translated line by line: every effect is computed, the
multiplicative yield is formed, then the stress penalty and the synergy
bonus are applied in source order. -/
def calculate_realistic_yield (c : Crop) (ph om n p k temp rain hum : ℚ) : ℚ :=
  let ph_eff := max 0.3 (1 - |ph - optimal_ph c| * 0.15)
  let om_eff := min 1.3 (0.8 + om / 10)
  let n_eff := min 1 (n / optimalN c)
  let p_eff := min 1 (p / optimalP c)
  let k_eff := min 1 (k / optimalK c)
  let nut_eff := max 0.2 (min n_eff (min p_eff k_eff))
  let temp_eff := max 0.4 (1 - |temp - optimal_temp c| * 0.03)
  let rain_eff0 :=
    if rain < optimal_rainfall c then rain / optimal_rainfall c
    else 1 - (rain - optimal_rainfall c) / optimal_rainfall c * 0.3
  let rain_eff := max 0.3 (min 1.2 rain_eff0)
  let hum_eff := max 0.7 (1 - |hum - optimal_humidity c| * 0.01)
  let fy := base_yield c * ph_eff * om_eff * nut_eff * temp_eff * rain_eff * hum_eff
  let fy2 :=
    if optimal_temp c + 5 < temp ∧ hum < optimal_humidity c - 10
    then fy * 0.85 else fy
  if 0.9 < ph_eff ∧ 0.8 < nut_eff ∧ 0.9 < temp_eff ∧ 0.9 < rain_eff
  then fy2 * 1.1 else fy2

/-- The pH effect of the yield formula, as a standalone definition. -/
def ph_effect (c : Crop) (ph : ℚ) : ℚ := max 0.3 (1 - |ph - optimal_ph c| * 0.15)

/-- The organic-matter effect of the yield formula. -/
def om_effect (om : ℚ) : ℚ := min 1.3 (0.8 + om / 10)

/-- The limiting-nutrient effect of the yield formula. -/
def nutrient_effect (c : Crop) (n p k : ℚ) : ℚ :=
  max 0.2 (min (min 1 (n / optimalN c))
    (min (min 1 (p / optimalP c)) (min 1 (k / optimalK c))))

/-- The temperature effect of the yield formula. -/
def temp_effect (c : Crop) (temp : ℚ) : ℚ :=
  max 0.4 (1 - |temp - optimal_temp c| * 0.03)

/-- The rainfall effect of the yield formula. -/
def rain_effect (c : Crop) (rain : ℚ) : ℚ :=
  max 0.3 (min 1.2
    (if rain < optimal_rainfall c then rain / optimal_rainfall c
     else 1 - (rain - optimal_rainfall c) / optimal_rainfall c * 0.3))

/-- The humidity effect of the yield formula. -/
def hum_effect (c : Crop) (hum : ℚ) : ℚ :=
  max 0.7 (1 - |hum - optimal_humidity c| * 0.01)

/-- The multiplicative core of the yield formula, before the two
interaction adjustments. -/
def coreYield (c : Crop) (ph om n p k temp rain hum : ℚ) : ℚ :=
  base_yield c * ph_effect c ph * om_effect om * nutrient_effect c n p k *
    temp_effect c temp * rain_effect c rain * hum_effect c hum

/-- Written from the words of claim C3, to be compared with the source
translation: the 10% synergy bonus applies exactly when the pH,
nutrient, temperature and rainfall effects are all strictly above 0.9,
the 15% stress penalty exactly when temperature exceeds optimal+5 and
humidity is more than 10 below optimal. -/
def claimedRealisticYield (c : Crop) (ph om n p k temp rain hum : ℚ) : ℚ :=
  coreYield c ph om n p k temp rain hum *
    (if optimal_temp c + 5 < temp ∧ hum < optimal_humidity c - 10
     then 0.85 else 1) *
    (if 0.9 < ph_effect c ph ∧ 0.9 < nutrient_effect c n p k ∧
        0.9 < temp_effect c temp ∧ 0.9 < rain_effect c rain
     then 1.1 else 1)

/-- Claim C3 with the one change the counterexample forces: the
nutrient-effect threshold of the synergy bonus is 0.8, not 0.9. -/
def amendedRealisticYield (c : Crop) (ph om n p k temp rain hum : ℚ) : ℚ :=
  coreYield c ph om n p k temp rain hum *
    (if optimal_temp c + 5 < temp ∧ hum < optimal_humidity c - 10
     then 0.85 else 1) *
    (if 0.9 < ph_effect c ph ∧ 0.8 < nutrient_effect c n p k ∧
        0.9 < temp_effect c temp ∧ 0.9 < rain_effect c rain
     then 1.1 else 1)

/-- C3 fails on the code: for Wheat with pH 6.5, organic matter 3,
nitrogen 29.75 (nutrient effect 0.85, between the thresholds), P 25,
K 150, temperature 20, rainfall 600, humidity 60, the source applies the
synergy bonus (yield 4.62825) although the nutrient effect is not above
0.9 (the claim predicts 4.2075). -/
theorem yield_synergy_counterexample :
    calculate_realistic_yield .Wheat 6.5 3 29.75 25 150 20 600 60 ≠
      claimedRealisticYield .Wheat 6.5 3 29.75 25 150 20 600 60 := by
  norm_num [calculate_realistic_yield, claimedRealisticYield, coreYield,
    ph_effect, om_effect, nutrient_effect, temp_effect, rain_effect,
    hum_effect, base_yield, optimal_ph, optimalN, optimalP, optimalK,
    optimal_temp, optimal_rainfall, optimal_humidity]

/-- C3 amended: the synergy bonus is applied exactly when the pH,
temperature and rainfall effects are above 0.9 and the nutrient effect is
above 0.8; the stress penalty exactly as the claim states it. -/
theorem yield_adjustments (c : Crop) (ph om n p k temp rain hum : ℚ) :
    calculate_realistic_yield c ph om n p k temp rain hum =
      amendedRealisticYield c ph om n p k temp rain hum := by
  simp only [calculate_realistic_yield, amendedRealisticYield, coreYield,
    ph_effect, om_effect, nutrient_effect, temp_effect, rain_effect,
    hum_effect]
  split_ifs <;> ring

/-- Translation of _apply_realistic_correlations works on these columns
(sample_agricultural_data.py lines 248-279). -/
structure GenRow where
  ph_level : ℚ
  organic_matter : ℚ
  nitrogen : ℚ
  phosphorus : ℚ
  potassium : ℚ
  temperature : ℚ
  rainfall : ℚ
  humidity : ℚ
  yield_tons_per_ha : ℚ

/-- np.clip(x, lo, hi). -/
def npClip (lo hi x : ℚ) : ℚ := min (max x lo) hi

/-- The action of _apply_realistic_correlations on one row: the three
median-mask perturbations are the factors fN, fH, fK (each drawn from its
np.random.uniform range, or 1 when the row is not in the mask), followed
by the global re-clipping of every column (lines 269-277). -/
def applyCorrelationsRow (fN fH fK : ℚ) (r : GenRow) : GenRow :=
  let r1 : GenRow :=
    { r with nitrogen := r.nitrogen * fN, humidity := r.humidity * fH,
             potassium := r.potassium * fK }
  { ph_level := npClip 4 9 r1.ph_level
    organic_matter := npClip 0.5 10 r1.organic_matter
    nitrogen := npClip 5 100 r1.nitrogen
    phosphorus := npClip 5 100 r1.phosphorus
    potassium := npClip 50 500 r1.potassium
    temperature := npClip 5 45 r1.temperature
    rainfall := npClip 200 3000 r1.rainfall
    humidity := npClip 20 100 r1.humidity
    yield_tons_per_ha := npClip 0.5 15 r1.yield_tons_per_ha }

lemma npClip_bounds (lo hi x : ℚ) (h : lo ≤ hi) :
    lo ≤ npClip lo hi x ∧ npClip lo hi x ≤ hi :=
  ⟨le_min (le_max_right x lo) h, min_le_right _ _⟩

/-- C8: after the correlation pass and re-clipping, every row has its
yield in [0.5, 15] and every feature column within its declared global
bounds, whatever values (hence whatever seed) the earlier random stages
produced. -/
theorem generated_rows_within_bounds (fN fH fK : ℚ) (r : GenRow) :
    let c := applyCorrelationsRow fN fH fK r
    (4 ≤ c.ph_level ∧ c.ph_level ≤ 9) ∧
    (0.5 ≤ c.organic_matter ∧ c.organic_matter ≤ 10) ∧
    (5 ≤ c.nitrogen ∧ c.nitrogen ≤ 100) ∧
    (5 ≤ c.phosphorus ∧ c.phosphorus ≤ 100) ∧
    (50 ≤ c.potassium ∧ c.potassium ≤ 500) ∧
    (5 ≤ c.temperature ∧ c.temperature ≤ 45) ∧
    (200 ≤ c.rainfall ∧ c.rainfall ≤ 3000) ∧
    (20 ≤ c.humidity ∧ c.humidity ≤ 100) ∧
    (0.5 ≤ c.yield_tons_per_ha ∧ c.yield_tons_per_ha ≤ 15) := by
  refine ⟨npClip_bounds _ _ _ (by norm_num), npClip_bounds _ _ _ (by norm_num),
    npClip_bounds _ _ _ (by norm_num), npClip_bounds _ _ _ (by norm_num),
    npClip_bounds _ _ _ (by norm_num), npClip_bounds _ _ _ (by norm_num),
    npClip_bounds _ _ _ (by norm_num), npClip_bounds _ _ _ (by norm_num),
    npClip_bounds _ _ _ (by norm_num)⟩

/-! utils/data_processor.py.  Rounding helpers first: Python round() is
round-half-to-even; round(x, d) rounds at the d-th decimal. -/

/-- Python round(q) on an exact rational: nearest integer, ties to the
even neighbour. -/
def pyRound (q : ℚ) : ℤ :=
  if Int.fract q < 1/2 then ⌊q⌋
  else if 1/2 < Int.fract q then ⌊q⌋ + 1
  else if ⌊q⌋ % 2 = 0 then ⌊q⌋ else ⌊q⌋ + 1

/-- Python round(q, 1). -/
def roundTo1 (q : ℚ) : ℚ := (pyRound (q * 10) : ℚ) / 10

/-- Python round(q, 2). -/
def roundTo2 (q : ℚ) : ℚ := (pyRound (q * 100) : ℚ) / 100

lemma pyRound_abs_sub (q : ℚ) : |(pyRound q : ℚ) - q| ≤ 1/2 := by
  have h0 : (0:ℚ) ≤ Int.fract q := Int.fract_nonneg q
  have h1 : Int.fract q < 1 := Int.fract_lt_one q
  have e : (⌊q⌋ : ℚ) = q - Int.fract q := by
    unfold Int.fract; ring
  unfold pyRound
  split_ifs with a b c <;>
    · rw [abs_le]
      push_cast
      constructor <;> linarith

lemma pyRound_nonneg (q : ℚ) (h : 0 ≤ q) : 0 ≤ pyRound q := by
  have hf : 0 ≤ ⌊q⌋ := Int.floor_nonneg.mpr h
  unfold pyRound
  split_ifs <;> omega

lemma roundTo1_abs_sub (q : ℚ) : |roundTo1 q - q| ≤ 1/20 := by
  have h := pyRound_abs_sub (q * 10)
  unfold roundTo1
  rw [abs_le] at h ⊢
  constructor <;> [linarith; linarith]

lemma roundTo1_nonneg (q : ℚ) (h : 0 ≤ q) : 0 ≤ roundTo1 q := by
  unfold roundTo1
  have := pyRound_nonneg (q * 10) (by linarith)
  positivity

/-- Soil test results: a string-keyed mapping, as the Python dict. -/
abbrev SoilData := List (String × ℚ)

/-- Python soil_data.get(key, default). -/
def sget (soil : SoilData) (key : String) (d : ℚ) : ℚ :=
  match soil.find? (fun kv => kv.1 == key) with
  | some kv => kv.2
  | none => d

/-- DataProcessor.soil_optimal_ranges (data_processor.py lines 8-16). -/
def soilOptimalRanges (p : String) : Option (ℚ × ℚ) :=
  if p = "ph" then some (6, 7)
  else if p = "organic_matter" then some (2.5, 5)
  else if p = "nitrogen" then some (20, 50)
  else if p = "phosphorus" then some (15, 40)
  else if p = "potassium" then some (100, 250)
  else if p = "calcium" then some (1000, 2500)
  else if p = "magnesium" then some (75, 200)
  else none

/-- The keys of soil_optimal_ranges. -/
def recognizedSoilParams : List String :=
  ["ph", "organic_matter", "nitrogen", "phosphorus", "potassium",
   "calcium", "magnesium"]

/-- The per-parameter score computation of analyze_soil_health
(data_processor.py lines 78-93): 100 inside the optimal range, otherwise
100 minus the relative deficit or excess in percent, floored at 0.  The
identical formula appears in analyze_crop_suitability (lines 231-236). -/
def soilParamScore (lo hi v : ℚ) : ℚ :=
  if lo ≤ v ∧ v ≤ hi then 100
  else if v < lo then max 0 (100 - (lo - v) / lo * 100)
  else max 0 (100 - (v - hi) / hi * 100)

/-- A deficiency or excess record of analyze_soil_health; bound is the
optimal_min (deficiency) or optimal_max (excess) field. -/
structure SoilIssue where
  parameter : String
  current : ℚ
  bound : ℚ
  severity : String
deriving DecidableEq

/-- The loop state of analyze_soil_health. -/
structure SoilAcc where
  total : ℚ
  count : ℕ
  scores : List (String × ℚ)
  deficiencies : List SoilIssue
  excesses : List SoilIssue

/-- One iteration of the loop over soil_data.items() in
analyze_soil_health (lines 73-103): unrecognized keys are skipped,
recognized ones are scored and recorded. -/
def soilStep (acc : SoilAcc) (kv : String × ℚ) : SoilAcc :=
  match soilOptimalRanges kv.1 with
  | none => acc
  | some (lo, hi) =>
      let score := soilParamScore lo hi kv.2
      let acc1 :=
        if lo ≤ kv.2 ∧ kv.2 ≤ hi then acc
        else if kv.2 < lo then
          { acc with deficiencies := acc.deficiencies ++
              [⟨kv.1, kv.2, lo, if score < 50 then "High" else "Medium"⟩] }
        else
          { acc with excesses := acc.excesses ++
              [⟨kv.1, kv.2, hi, if score < 50 then "High" else "Medium"⟩] }
      { acc1 with scores := acc1.scores ++ [(kv.1, score)],
                  total := acc1.total + score, count := acc1.count + 1 }

/-- The three recommendation tiers of _generate_soil_recommendations. -/
structure Recommendations3 where
  immediate : List String
  short_term : List String
  long_term : List String
deriving DecidableEq

/-- The per-nutrient branch of _generate_soil_recommendations (lines
153-165): returns its (immediate, short_term) contributions. -/
def nutrientRec (name : String) (lo hi value : ℚ) : List String × List String :=
  if value < lo then
    if 50 < (lo - value) / lo * 100
    then (["Apply " ++ name ++ " fertilizer - severe deficiency detected"], [])
    else ([], ["Increase " ++ name ++ " levels through targeted fertilization"])
  else if hi * 1.5 < value then
    (["Reduce " ++ name ++ " applications - excess levels detected"], [])
  else ([], [])

/-- Translation of _generate_soil_recommendations (data_processor.py lines 126-196),
with each conditional append of the source in order.  The f-string
interpolations of numeric values are rendered with toString. -/
def generate_soil_recommendations (overall : ℤ) (soil : SoilData) :
    Recommendations3 :=
  let ph := sget soil "ph" 7
  let phRec : List String × List String :=
    if ph < 6 then
      (["Apply lime to raise pH from " ++ toString ph ++ " to 6.0-7.0 range"],
       ["Retest pH after 3-4 months to monitor lime effectiveness"])
    else if 8 < ph then
      (["Apply sulfur or organic matter to lower pH from " ++ toString ph],
       ["Consider using acidifying fertilizers"])
    else ([], [])
  let om := sget soil "organic_matter" 3
  let omImm : List String :=
    if om < 2.5 then ["Add compost or well-rotted manure to increase organic matter"]
    else []
  let omLong : List String :=
    if om < 2.5 then ["Implement cover cropping to build long-term organic matter"]
    else []
  let omShort : List String :=
    if ¬(om < 2.5) ∧ 6 < om then
      ["Monitor drainage as high organic matter can retain excess water"]
    else []
  let nRec := nutrientRec "nitrogen" 20 50 (sget soil "nitrogen" 0)
  let pRec := nutrientRec "phosphorus" 15 40 (sget soil "phosphorus" 0)
  let kRec := nutrientRec "potassium" 100 250 (sget soil "potassium" 0)
  let calcium := sget soil "calcium" 1200
  let magnesium := sget soil "magnesium" 120
  let caShort : List String :=
    if calcium < 1000 then ["Apply gypsum or lime to increase calcium levels"]
    else []
  let mgShort : List String :=
    if magnesium < 75 then ["Apply Epsom salt or dolomitic lime for magnesium"]
    else []
  let camgShort : List String :=
    if 0 < calcium ∧ 0 < magnesium then
      let camg := calcium / magnesium
      if camg < 3 then
        ["Calcium to magnesium ratio is low - consider calcium applications"]
      else if 10 < camg then
        ["Calcium to magnesium ratio is high - consider magnesium applications"]
      else []
    else []
  let lowImm : List String :=
    if overall < 60 then ["Conduct comprehensive soil remediation program"] else []
  let lowLong : List String :=
    if overall < 60 then
      ["Implement regular soil testing schedule (every 2-3 years)"]
    else []
  { immediate := phRec.1 ++ omImm ++ nRec.1 ++ pRec.1 ++ kRec.1 ++ lowImm
    short_term := phRec.2 ++ omShort ++ nRec.2 ++ pRec.2 ++ kRec.2 ++
      caShort ++ mgShort ++ camgShort
    long_term := omLong ++ lowLong ++
      ["Maintain crop rotation to preserve soil health",
       "Consider precision agriculture techniques for optimal nutrient management",
       "Implement sustainable farming practices to build long-term soil fertility"] }

/-- The record returned by analyze_soil_health. -/
structure SoilAnalysis where
  overall_score : ℤ
  rating : String
  parameter_scores : List (String × ℚ)
  deficiencies : List SoilIssue
  excesses : List SoilIssue
  recommendations : Recommendations3

/-- DataProcessor.analyze_soil_health (data_processor.py lines 45-124). -/
def analyze_soil_health (soil : SoilData) : SoilAnalysis :=
  let acc := soil.foldl soilStep ⟨0, 0, [], [], []⟩
  let overall : ℤ :=
    if 0 < acc.count then pyRound (acc.total / acc.count) else 0
  { overall_score := overall
    rating :=
      if 85 ≤ overall then "Excellent"
      else if 75 ≤ overall then "Good"
      else if 60 ≤ overall then "Fair"
      else if 40 ≤ overall then "Poor"
      else "Very Poor"
    parameter_scores := acc.scores
    deficiencies := acc.deficiencies
    excesses := acc.excesses
    recommendations := generate_soil_recommendations overall soil }

lemma soilParamScore_in_range (lo hi v : ℚ) (h1 : lo ≤ v) (h2 : v ≤ hi) :
    soilParamScore lo hi v = 100 := by
  unfold soilParamScore
  rw [if_pos ⟨h1, h2⟩]

lemma soilParamScore_mono_below (lo hi v1 v2 : ℚ) (hlo : 0 < lo)
    (h12 : v1 ≤ v2) (h2 : v2 < lo) :
    soilParamScore lo hi v1 ≤ soilParamScore lo hi v2 := by
  have hv1 : v1 < lo := lt_of_le_of_lt h12 h2
  unfold soilParamScore
  rw [if_neg (by rintro ⟨hc, -⟩; linarith), if_pos hv1,
    if_neg (by rintro ⟨hc, -⟩; linarith), if_pos h2]
  have hc : (0:ℚ) ≤ 100 / lo := by positivity
  have key : (lo - v2) / lo * 100 ≤ (lo - v1) / lo * 100 := by
    have e1 : (lo - v1) / lo * 100 = (lo - v1) * (100 / lo) := by ring
    have e2 : (lo - v2) / lo * 100 = (lo - v2) * (100 / lo) := by ring
    rw [e1, e2]
    exact mul_le_mul_of_nonneg_right (by linarith) hc
  exact max_le_max (le_refl 0) (by linarith)

lemma soilParamScore_mono_above (lo hi v1 v2 : ℚ) (hhi : 0 < hi)
    (hlohi : lo ≤ hi) (h1 : hi < v1) (h12 : v1 ≤ v2) :
    soilParamScore lo hi v2 ≤ soilParamScore lo hi v1 := by
  have hv2 : hi < v2 := lt_of_lt_of_le h1 h12
  unfold soilParamScore
  rw [if_neg (by rintro ⟨-, hc⟩; linarith), if_neg (by intro hc; linarith),
    if_neg (by rintro ⟨-, hc⟩; linarith), if_neg (by intro hc; linarith)]
  have hc : (0:ℚ) ≤ 100 / hi := by positivity
  have key : (v2 - hi) / hi * 100 ≥ (v1 - hi) / hi * 100 := by
    have e1 : (v1 - hi) / hi * 100 = (v1 - hi) * (100 / hi) := by ring
    have e2 : (v2 - hi) / hi * 100 = (v2 - hi) * (100 / hi) := by ring
    rw [e1, e2]
    exact mul_le_mul_of_nonneg_right (by linarith) hc
  exact max_le_max (le_refl 0) (by linarith)

/-- C5: for every recognized soil parameter, a value inside the optimal
range scores exactly 100, and of two values outside the range on the same
side the one further from the range never scores strictly more. -/
theorem soil_param_score_monotone (name : String) (lo hi : ℚ)
    (h : soilOptimalRanges name = some (lo, hi)) (v v1 v2 : ℚ) :
    (lo ≤ v → v ≤ hi → soilParamScore lo hi v = 100) ∧
    (v1 ≤ v2 → v2 < lo → soilParamScore lo hi v1 ≤ soilParamScore lo hi v2) ∧
    (hi < v1 → v1 ≤ v2 → soilParamScore lo hi v2 ≤ soilParamScore lo hi v1) := by
  have hpos : 0 < lo ∧ 0 < hi ∧ lo ≤ hi := by
    unfold soilOptimalRanges at h
    split_ifs at h <;>
      · simp only [Option.some.injEq, Prod.mk.injEq] at h
        obtain ⟨rfl, rfl⟩ := h
        refine ⟨by norm_num, by norm_num, by norm_num⟩
  exact ⟨fun h1 h2 => soilParamScore_in_range lo hi v h1 h2,
    fun h1 h2 => soilParamScore_mono_below lo hi v1 v2 hpos.1 h1 h2,
    fun h1 h2 => soilParamScore_mono_above lo hi v1 v2 hpos.2.1 hpos.2.2 h1 h2⟩

/-- Witness for C5 on the ph parameter: 6.5 scores 100; 5 is no better
than 5.5 below the range; 9 is no better than 8.5 above it. -/
theorem soil_param_score_monotone_witness :
    soilParamScore 6 7 6.5 = 100 ∧
    soilParamScore 6 7 5 ≤ soilParamScore 6 7 5.5 ∧
    soilParamScore 6 7 9 ≤ soilParamScore 6 7 8.5 := by
  have h : soilOptimalRanges "ph" = some (6, 7) := by
    norm_num [soilOptimalRanges]
  exact ⟨(soil_param_score_monotone "ph" 6 7 h 6.5 0 0).1 (by norm_num) (by norm_num),
    (soil_param_score_monotone "ph" 6 7 h 0 5 5.5).2.1 (by norm_num) (by norm_num),
    (soil_param_score_monotone "ph" 6 7 h 0 8.5 9).2.2 (by norm_num) (by norm_num)⟩

lemma soilOptimalRanges_eq_none (p : String) (h : p ∉ recognizedSoilParams) :
    soilOptimalRanges p = none := by
  simp only [recognizedSoilParams, List.mem_cons, List.not_mem_nil, or_false,
    not_or] at h
  obtain ⟨h1, h2, h3, h4, h5, h6, h7⟩ := h
  simp [soilOptimalRanges, h1, h2, h3, h4, h5, h6, h7]

lemma soil_foldl_unrecognized (l : SoilData) (acc : SoilAcc)
    (h : ∀ kv ∈ l, kv.1 ∉ recognizedSoilParams) :
    l.foldl soilStep acc = acc := by
  induction l generalizing acc with
  | nil => rfl
  | cons hd tl ih =>
    rw [List.foldl_cons]
    have hstep : soilStep acc hd = acc := by
      unfold soilStep
      rw [soilOptimalRanges_eq_none hd.1 (h hd (List.mem_cons_self hd tl))]
    rw [hstep]
    exact ih acc (fun kv hkv => h kv (List.mem_cons_of_mem hd hkv))

/-- C10: on a soil mapping containing none of the seven recognized
parameters, analyze_soil_health returns overall score 0, rating
Very Poor, and empty score, deficiency and excess collections. -/
theorem analyze_soil_health_unrecognized (soil : SoilData)
    (h : ∀ kv ∈ soil, kv.1 ∉ recognizedSoilParams) :
    (analyze_soil_health soil).overall_score = 0 ∧
    (analyze_soil_health soil).rating = "Very Poor" ∧
    (analyze_soil_health soil).parameter_scores = [] ∧
    (analyze_soil_health soil).deficiencies = [] ∧
    (analyze_soil_health soil).excesses = [] := by
  unfold analyze_soil_health
  rw [soil_foldl_unrecognized soil ⟨0, 0, [], [], []⟩ h]
  norm_num

/-- Witness for C10 at the empty mapping. -/
theorem analyze_soil_health_unrecognized_witness :
    (analyze_soil_health []).overall_score = 0 ∧
    (analyze_soil_health []).rating = "Very Poor" ∧
    (analyze_soil_health []).parameter_scores = [] ∧
    (analyze_soil_health []).deficiencies = [] ∧
    (analyze_soil_health []).excesses = [] :=
  analyze_soil_health_unrecognized [] (by simp)

/-! generate_fertilizer_plan (data_processor.py lines 328-481). -/

/-- nutrient_requirements N column, kg per ton of yield (lines 345-350). -/
def nutrientReqN : Crop → ℚ
  | .Wheat => 25 | .Corn => 22 | .Rice => 20 | .Soybeans => 5

/-- nutrient_requirements P2O5 column (lines 345-350). -/
def nutrientReqP : Crop → ℚ
  | .Wheat => 12 | .Corn => 10 | .Rice => 8 | .Soybeans => 8

/-- nutrient_requirements K2O column (lines 345-350). -/
def nutrientReqK : Crop → ℚ
  | .Wheat => 20 | .Corn => 18 | .Rice => 15 | .Soybeans => 12

/-- One growth-stage bucket of the application schedule. -/
structure StageAmounts where
  n : ℚ
  p2o5 : ℚ
  k2o : ℚ
  timing : String

/-- The four growth-stage buckets of _create_application_schedule. -/
structure ApplicationSchedule where
  pre_plant : StageAmounts
  early_growth : StageAmounts
  mid_growth : StageAmounts
  late_growth : StageAmounts

/-- Translation of _create_application_schedule (data_processor.py lines 400-458): the
crop-specific fractions are written on the stage entries the source
assigns; every untouched entry stays 0; every value is rounded to one
decimal at the end. -/
def create_application_schedule (c : Crop) (n_needed p_needed k_needed : ℚ) :
    ApplicationSchedule :=
  match c with
  | .Wheat =>
    { pre_plant := ⟨roundTo1 (n_needed * 0.3), roundTo1 (p_needed * 1.0),
        roundTo1 (k_needed * 0.5), "Before planting or at planting"⟩
      early_growth := ⟨roundTo1 (n_needed * 0.4), roundTo1 0,
        roundTo1 (k_needed * 0.3), "2-4 weeks after emergence"⟩
      mid_growth := ⟨roundTo1 (n_needed * 0.3), roundTo1 0,
        roundTo1 (k_needed * 0.2), "6-8 weeks after emergence"⟩
      late_growth := ⟨roundTo1 0, roundTo1 0, roundTo1 0,
        "Before reproductive stage"⟩ }
  | .Corn =>
    { pre_plant := ⟨roundTo1 (n_needed * 0.2), roundTo1 (p_needed * 1.0),
        roundTo1 (k_needed * 0.4), "Before planting or at planting"⟩
      early_growth := ⟨roundTo1 (n_needed * 0.3), roundTo1 0,
        roundTo1 (k_needed * 0.3), "2-4 weeks after emergence"⟩
      mid_growth := ⟨roundTo1 (n_needed * 0.5), roundTo1 0,
        roundTo1 (k_needed * 0.3), "6-8 weeks after emergence"⟩
      late_growth := ⟨roundTo1 0, roundTo1 0, roundTo1 0,
        "Before reproductive stage"⟩ }
  | .Rice =>
    { pre_plant := ⟨roundTo1 (n_needed * 0.4), roundTo1 (p_needed * 1.0),
        roundTo1 (k_needed * 0.5), "Before planting or at planting"⟩
      early_growth := ⟨roundTo1 (n_needed * 0.3), roundTo1 0, roundTo1 0,
        "2-4 weeks after emergence"⟩
      mid_growth := ⟨roundTo1 (n_needed * 0.3), roundTo1 0,
        roundTo1 (k_needed * 0.5), "6-8 weeks after emergence"⟩
      late_growth := ⟨roundTo1 0, roundTo1 0, roundTo1 0,
        "Before reproductive stage"⟩ }
  | .Soybeans =>
    { pre_plant := ⟨roundTo1 (n_needed * 0.5), roundTo1 (p_needed * 1.0),
        roundTo1 (k_needed * 0.6), "Before planting or at planting"⟩
      early_growth := ⟨roundTo1 (n_needed * 0.3), roundTo1 0,
        roundTo1 (k_needed * 0.2), "2-4 weeks after emergence"⟩
      mid_growth := ⟨roundTo1 (n_needed * 0.2), roundTo1 0,
        roundTo1 (k_needed * 0.2), "6-8 weeks after emergence"⟩
      late_growth := ⟨roundTo1 0, roundTo1 0, roundTo1 0,
        "Before reproductive stage"⟩ }

/-- The record returned by _estimate_fertilizer_cost (lines 460-481). -/
structure FertilizerCost where
  nitrogen_cost : ℚ
  phosphorus_cost : ℚ
  potassium_cost : ℚ
  total_cost : ℚ
  cost_per_hectare : ℚ

/-- Translation of _estimate_fertilizer_cost: fixed per-kg prices 1.20 / 1.50 / 0.80. -/
def estimate_fertilizer_cost (n_needed p_needed k_needed : ℚ) : FertilizerCost :=
  let n_cost := n_needed * 1.2
  let p_cost := p_needed * 1.5
  let k_cost := k_needed * 0.8
  { nitrogen_cost := roundTo2 n_cost
    phosphorus_cost := roundTo2 p_cost
    potassium_cost := roundTo2 k_cost
    total_cost := roundTo2 (n_cost + p_cost + k_cost)
    cost_per_hectare := roundTo2 (n_cost + p_cost + k_cost) }

/-- The plan record of generate_fertilizer_plan; fert_n, fert_p, fert_k
are the fertilizer_needed entries. -/
structure FertilizerPlan where
  crop_type : Crop
  target_yield : ℚ
  total_n : ℚ
  total_p : ℚ
  total_k : ℚ
  soil_n : ℚ
  soil_p : ℚ
  soil_k : ℚ
  fert_n : ℚ
  fert_p : ℚ
  fert_k : ℚ
  application_schedule : ApplicationSchedule
  estimated_cost : FertilizerCost

/-- generate_fertilizer_plan (data_processor.py lines 328-398): total
needs from the per-ton table, soil P and K converted to oxide units
(2.29, 1.2), availability discounts 50/30/80 percent, floored at 0; the
schedule and the cost are computed from the unrounded amounts while the
fertilizer_needed entries are rounded to one decimal. -/
def generate_fertilizer_plan (soil : SoilData) (c : Crop) (target_yield : ℚ) :
    FertilizerPlan :=
  let total_n := nutrientReqN c * target_yield
  let total_p := nutrientReqP c * target_yield
  let total_k := nutrientReqK c * target_yield
  let soil_n := sget soil "nitrogen" 25
  let soil_p := sget soil "phosphorus" 20 * 2.29
  let soil_k := sget soil "potassium" 150 * 1.2
  let n_needed := max 0 (total_n - soil_n * 0.5)
  let p_needed := max 0 (total_p - soil_p * 0.3)
  let k_needed := max 0 (total_k - soil_k * 0.8)
  { crop_type := c
    target_yield := target_yield
    total_n := total_n
    total_p := total_p
    total_k := total_k
    soil_n := soil_n
    soil_p := soil_p
    soil_k := soil_k
    fert_n := roundTo1 n_needed
    fert_p := roundTo1 p_needed
    fert_k := roundTo1 k_needed
    application_schedule := create_application_schedule c n_needed p_needed k_needed
    estimated_cost := estimate_fertilizer_cost n_needed p_needed k_needed }

/-- Four one-decimal roundings of values summing to S stay within 1/4 of
the one-decimal rounding of S. -/
lemma sum4_roundTo1_close (s1 s2 s3 s4 S : ℚ) (h : s1 + s2 + s3 + s4 = S) :
    |roundTo1 s1 + roundTo1 s2 + roundTo1 s3 + roundTo1 s4 - roundTo1 S| ≤ 1/4 := by
  have h1 := roundTo1_abs_sub s1
  have h2 := roundTo1_abs_sub s2
  have h3 := roundTo1_abs_sub s3
  have h4 := roundTo1_abs_sub s4
  have h5 := roundTo1_abs_sub S
  rw [abs_le] at h1 h2 h3 h4 h5 ⊢
  constructor <;> linarith

/-- C4: every fertilizer_needed quantity of the plan is nonnegative, and
per nutrient the four stage amounts of the application schedule sum to
the fertilizer_needed entry up to the accumulated one-decimal rounding
tolerance of 1/4. -/
theorem fertilizer_plan_sound (soil : SoilData) (c : Crop) (t : ℚ) :
    let plan := generate_fertilizer_plan soil c t
    (0 ≤ plan.fert_n ∧ 0 ≤ plan.fert_p ∧ 0 ≤ plan.fert_k) ∧
    |plan.application_schedule.pre_plant.n +
        plan.application_schedule.early_growth.n +
        plan.application_schedule.mid_growth.n +
        plan.application_schedule.late_growth.n - plan.fert_n| ≤ 1/4 ∧
    |plan.application_schedule.pre_plant.p2o5 +
        plan.application_schedule.early_growth.p2o5 +
        plan.application_schedule.mid_growth.p2o5 +
        plan.application_schedule.late_growth.p2o5 - plan.fert_p| ≤ 1/4 ∧
    |plan.application_schedule.pre_plant.k2o +
        plan.application_schedule.early_growth.k2o +
        plan.application_schedule.mid_growth.k2o +
        plan.application_schedule.late_growth.k2o - plan.fert_k| ≤ 1/4 := by
  cases c <;>
    · simp only [generate_fertilizer_plan, create_application_schedule]
      refine ⟨⟨roundTo1_nonneg _ (le_max_left _ _),
        roundTo1_nonneg _ (le_max_left _ _),
        roundTo1_nonneg _ (le_max_left _ _)⟩, ?_, ?_, ?_⟩ <;>
        · apply sum4_roundTo1_close
          ring

/-! analyze_crop_suitability (data_processor.py lines 198-326). -/

/-- The display name of a crop, as the crop_type string. -/
def cropName : Crop → String
  | .Wheat => "Wheat" | .Corn => "Corn" | .Rice => "Rice" | .Soybeans => "Soybeans"

/-- self.crop_types (crop_models.py line 21); also the key set of
crop_soil_preferences and of the recommendation engine crop_data table. -/
def cropTypes : List String := ["Wheat", "Corn", "Rice", "Soybeans"]

/-- DataProcessor.crop_soil_preferences (data_processor.py lines 18-43),
as the ordered item list of each per-crop dict. -/
def cropPrefs : Crop → List (String × ℚ × ℚ)
  | .Wheat =>
    [("ph", 6, 7), ("nitrogen", 25, 45), ("phosphorus", 20, 40),
     ("potassium", 120, 200)]
  | .Corn =>
    [("ph", 6, 6.8), ("nitrogen", 30, 60), ("phosphorus", 25, 45),
     ("potassium", 150, 250)]
  | .Rice =>
    [("ph", 5.5, 6.5), ("nitrogen", 20, 40), ("phosphorus", 15, 30),
     ("potassium", 100, 180)]
  | .Soybeans =>
    [("ph", 6, 7), ("nitrogen", 15, 30), ("phosphorus", 20, 35),
     ("potassium", 120, 220)]

/-- Python: parameter in soil_data. -/
def smem (soil : SoilData) (key : String) : Bool :=
  (soil.find? (fun kv => kv.1 == key)).isSome

/-- One parameter_suitability entry of analyze_crop_suitability. -/
structure ParamSuitability where
  parameter : String
  score : ℚ
  current : ℚ
  range_lo : ℚ
  range_hi : ℚ
  status : String
deriving DecidableEq

/-- One limiting_factors entry of analyze_crop_suitability. -/
structure LimitingFactor where
  parameter : String
  current : ℚ
  needed_lo : ℚ
  needed_hi : ℚ
  score : ℚ
deriving DecidableEq

/-- The loop state of analyze_crop_suitability. -/
structure SuitAcc where
  total : ℚ
  count : ℕ
  params : List ParamSuitability
  limiting : List LimitingFactor

/-- One iteration of the loop over crop_preferences.items() (lines
226-254): parameters absent from soil_data are skipped. -/
def suitStep (soil : SoilData) (acc : SuitAcc) (pref : String × ℚ × ℚ) :
    SuitAcc :=
  if smem soil pref.1 then
    let value := sget soil pref.1 0
    let score := soilParamScore pref.2.1 pref.2.2 value
    let status :=
      if score = 100 then "Optimal" else if 70 < score then "Suboptimal" else "Poor"
    let acc1 := { acc with params := acc.params ++
      [({ parameter := pref.1, score := score, current := value,
          range_lo := pref.2.1, range_hi := pref.2.2,
          status := status } : ParamSuitability)] }
    let acc2 :=
      if score < 70 then
        { acc1 with limiting := acc1.limiting ++
            [({ parameter := pref.1, current := value, needed_lo := pref.2.1,
                needed_hi := pref.2.2, score := score } : LimitingFactor)] }
      else acc1
    { acc2 with total := acc2.total + score, count := acc2.count + 1 }
  else acc

/-- The per-limiting-factor branch of
_generate_crop_specific_recommendations (lines 283-310). -/
def limitingFactorRec (c : Crop) (f : LimitingFactor) : List String :=
  if f.parameter = "ph" then
    if f.current < f.needed_lo then
      ["Apply lime to raise pH to " ++ toString f.needed_lo ++ "-" ++
        toString f.needed_hi ++ " range for " ++ cropName c]
    else
      ["Apply sulfur to lower pH to " ++ toString f.needed_lo ++ "-" ++
        toString f.needed_hi ++ " range for " ++ cropName c]
  else if f.parameter = "nitrogen" then
    if f.current < f.needed_lo then
      ["Apply nitrogen fertilizer to reach " ++ toString f.needed_lo ++ "-" ++
        toString f.needed_hi ++ " ppm for " ++ cropName c]
    else
      ["Reduce nitrogen applications - current levels exceed " ++ cropName c ++
        " requirements"]
  else if f.parameter = "phosphorus" then
    if f.current < f.needed_lo then
      ["Apply phosphorus fertilizer to reach " ++ toString f.needed_lo ++ "-" ++
        toString f.needed_hi ++ " ppm for " ++ cropName c]
    else ["Reduce phosphorus applications for " ++ cropName c]
  else if f.parameter = "potassium" then
    if f.current < f.needed_lo then
      ["Apply potassium fertilizer to reach " ++ toString f.needed_lo ++ "-" ++
        toString f.needed_hi ++ " ppm for " ++ cropName c]
    else ["Reduce potassium applications for " ++ cropName c]
  else []

/-- Translation of _generate_crop_specific_recommendations (lines 266-326). -/
def crop_specific_recommendations (c : Crop) (overall : ℤ)
    (limiting : List LimitingFactor) : List String :=
  (if 85 ≤ overall then
    ["Soil conditions are excellent for " ++ cropName c ++ " production",
     "Maintain current soil management practices"]
   else if 70 ≤ overall then
    ["Soil conditions are good for " ++ cropName c ++
      " with minor adjustments needed"]
   else
    ["Soil requires significant improvements for optimal " ++ cropName c ++
      " production"]) ++
  limiting.flatMap (limitingFactorRec c) ++
  (match c with
   | .Rice =>
     ["Ensure proper water management for paddy conditions",
      "Monitor for anaerobic soil conditions"]
   | .Soybeans =>
     ["Consider inoculation with Rhizobia bacteria for nitrogen fixation",
      "Monitor calcium levels for pod development"]
   | .Corn =>
     ["Ensure adequate drainage for corn production",
      "Plan for high nitrogen requirements during vegetative growth"]
   | .Wheat =>
     ["Monitor sulfur levels for protein development",
      "Ensure good soil structure for root development"])

/-- The record returned by analyze_crop_suitability on success. -/
structure Suitability where
  crop : Crop
  overall_suitability : ℤ
  parameter_suitability : List ParamSuitability
  limiting_factors : List LimitingFactor
  recommendations : List String

/-- DataProcessor.analyze_crop_suitability (lines 198-264): an unknown
crop-type string yields the error record, a known one the full scoring
result. -/
def analyze_crop_suitability (soil : SoilData) (crop_type : String) :
    Except String Suitability :=
  match parseCrop crop_type with
  | none => .error ("Crop type " ++ crop_type ++ " not supported")
  | some c =>
    let acc := (cropPrefs c).foldl (suitStep soil) ⟨0, 0, [], []⟩
    let overall : ℤ :=
      if 0 < acc.count then pyRound (acc.total / acc.count) else 0
    .ok { crop := c
          overall_suitability := overall
          parameter_suitability := acc.params
          limiting_factors := acc.limiting
          recommendations := crop_specific_recommendations c overall acc.limiting }

/-! CropYieldPredictor.predict_yield (crop_models.py lines 68-123).  The
fitted scaler and RandomForest of each crop cannot be translated; they
enter as the function parameter model (crop to prediction on the scaled
features), and the fitted per-feature importances as the parameter
importance.  Everything else is translated. -/

/-- The record returned by predict_yield. -/
structure PredictResult where
  yield_per_ha : ℚ
  total_yield : ℚ
  confidence : ℚ
  risk_level : String
  risk_factors : String
  feature_importance : List (String × ℚ)

/-- predict_yield: crop types outside the trained-models dict (its key
set is crop_types, since _initialize_models trains all four on the
generated data) raise before anything is computed. -/
def predict_yield (model : Crop → InputData → ℚ)
    (importance : Crop → List (String × ℚ)) (u : ℚ) (crop_type : String)
    (farm_area : Option ℚ) (x : InputData) : Except String PredictResult :=
  match parseCrop crop_type with
  | none => .error ("Model not available for crop type: " ++ crop_type)
  | some c =>
    let predicted := model c x
    let total := predicted * farm_area.getD 1
    .ok { yield_per_ha := max 0 predicted
          total_yield := max 0 total
          confidence := calculate_confidence x u
          risk_level := (assess_risk_factors x).level
          risk_factors := (assess_risk_factors x).factors
          feature_importance := importance c }

/-! RecommendationEngine (services/recommendation_engine.py). -/

/-- One categorized recommendation record. -/
structure Recommendation where
  action : String
  timing : String
  priority : String
  reason : String
  details : List String
deriving DecidableEq

/-- The static per-crop knowledge table entry (lines 8-77). -/
structure CropInfo where
  growth_stages : List String
  season_start : String
  season_end : String
  water_needs : String
  fertilizer_schedule : List (String × List String)
  common_pests : List String
  opt_temp : ℚ × ℚ
  opt_humidity : ℚ × ℚ
  opt_soil_ph : ℚ × ℚ

/-- Python fertilizer_schedule.get(stage, default). -/
def flookup (l : List (String × List String)) (k : String)
    (d : List String) : List String :=
  match l.find? (fun kv => kv.1 == k) with
  | some kv => kv.2
  | none => d

/-- RecommendationEngine.crop_data (lines 8-77). -/
def cropData : Crop → CropInfo
  | .Wheat =>
    { growth_stages := ["Seedling", "Vegetative", "Flowering", "Maturity"]
      season_start := "October", season_end := "June"
      water_needs := "Medium"
      fertilizer_schedule :=
        [("Seedling", ["Phosphorus-rich starter", "Light nitrogen"]),
         ("Vegetative", ["High nitrogen", "Potassium"]),
         ("Flowering", ["Balanced NPK", "Micronutrients"]),
         ("Maturity", ["Minimal fertilizer", "Potassium boost"])]
      common_pests := ["Aphids", "Wheat rust", "Armyworms"]
      opt_temp := (15, 25), opt_humidity := (50, 70), opt_soil_ph := (6, 7) }
  | .Corn =>
    { growth_stages := ["Seedling", "Vegetative", "Flowering", "Maturity"]
      season_start := "April", season_end := "October"
      water_needs := "High"
      fertilizer_schedule :=
        [("Seedling", ["Starter fertilizer", "Phosphorus"]),
         ("Vegetative", ["Heavy nitrogen", "Side-dress application"]),
         ("Flowering", ["Balanced fertilizer", "Zinc supplement"]),
         ("Maturity", ["Minimal nitrogen", "Potassium"])]
      common_pests := ["Corn borer", "Rootworm", "Fall armyworm"]
      opt_temp := (20, 30), opt_humidity := (60, 80), opt_soil_ph := (6, 6.8) }
  | .Rice =>
    { growth_stages := ["Seedling", "Vegetative", "Flowering", "Maturity"]
      season_start := "May", season_end := "October"
      water_needs := "Very High"
      fertilizer_schedule :=
        [("Seedling", ["Nitrogen-phosphorus", "Transplanting fertilizer"]),
         ("Vegetative", ["Split nitrogen application", "Potassium"]),
         ("Flowering", ["Panicle initiation fertilizer", "Micronutrients"]),
         ("Maturity", ["Final potassium", "Harvest preparation"])]
      common_pests := ["Rice blast", "Brown planthopper", "Stem borer"]
      opt_temp := (25, 35), opt_humidity := (70, 90), opt_soil_ph := (5.5, 6.5) }
  | .Soybeans =>
    { growth_stages := ["Seedling", "Vegetative", "Flowering", "Maturity"]
      season_start := "May", season_end := "September"
      water_needs := "Medium-High"
      fertilizer_schedule :=
        [("Seedling", ["Starter phosphorus", "Inoculant"]),
         ("Vegetative", ["Light nitrogen", "Potassium"]),
         ("Flowering", ["Calcium", "Boron supplement"]),
         ("Maturity", ["Final potassium", "Harvest timing"])]
      common_pests := ["Soybean aphid", "Bean leaf beetle", "White mold"]
      opt_temp := (20, 28), opt_humidity := (55, 75), opt_soil_ph := (6, 7) }

/-- The Vegetative entry of the irrigation stage table (lines 138-143),
also the .get default. -/
def vegetativeIrrigation : Recommendation :=
  { action := "Deep, less frequent watering to encourage root development"
    timing := "Every 3-5 days depending on soil type and weather"
    priority := "Medium"
    reason := "Building strong root system and vegetative growth"
    details := [] }

/-- stage_recommendations.get(growth_stage, Vegetative default)
(lines 131-158). -/
def stageIrrigationBase (stage : String) : Recommendation :=
  if stage = "Seedling" then
    { action := "Light, frequent watering to maintain soil moisture"
      timing := "Daily light irrigation or every 2-3 days"
      priority := "High"
      reason := "Critical establishment phase requiring consistent moisture"
      details := [] }
  else if stage = "Vegetative" then vegetativeIrrigation
  else if stage = "Flowering" then
    { action := "Consistent moisture critical for flower and fruit development"
      timing := "Monitor soil moisture daily, irrigate as needed"
      priority := "High"
      reason := "Water stress during flowering significantly impacts yield"
      details := [] }
  else if stage = "Maturity" then
    { action := "Reduce irrigation to prevent quality issues and prepare for harvest"
      timing := "Minimal irrigation, only if severe drought conditions"
      priority := "Low"
      reason := "Excess moisture can delay harvest and reduce grain quality"
      details := [] }
  else vegetativeIrrigation

/-- Translation of _generate_irrigation_recommendations (lines 124-194); region is
accepted and never read, as in the source. -/
def irrigation_recommendations (c : Crop) (stage : String) (month : ℕ)
    (region : String) : Recommendation :=
  let info := cropData c
  let base := stageIrrigationBase stage
  let base1 :=
    if info.water_needs = "Very High" then
      { base with
          action := base.action ++ " - This crop requires abundant water"
          priority := if base.priority = "Low" then "Medium" else base.priority }
    else if info.water_needs = "Low" then
      { base with
          action := base.action ++ " - This crop is drought tolerant"
          priority := if base.priority = "High" then "Medium" else base.priority }
    else base
  let details :=
    if month = 6 ∨ month = 7 ∨ month = 8 then
      ["Increase irrigation frequency during hot summer months",
       "Consider early morning irrigation to reduce evaporation",
       "Monitor for signs of heat stress",
       "Mulch around plants to retain soil moisture"]
    else if month = 12 ∨ month = 1 ∨ month = 2 then
      ["Reduce irrigation frequency in cooler weather",
       "Avoid overwatering in low evaporation conditions",
       "Check drainage to prevent waterlogging",
       "Monitor soil temperature before irrigating"]
    else
      ["Monitor weather forecasts before scheduling irrigation",
       "Check soil moisture at 6-inch depth before watering",
       "Adjust timing based on recent rainfall",
       "Maintain consistent moisture levels"]
  { base1 with details := details }

/-- Translation of _get_fertilizer_timing (lines 381-389). -/
def fertilizer_timing (stage : String) : String :=
  if stage = "Seedling" then "At planting or within 2 weeks of emergence"
  else if stage = "Vegetative" then "Every 3-4 weeks during active growth"
  else if stage = "Flowering" then "At flower initiation and early flowering"
  else if stage = "Maturity" then "Final application before grain filling"
  else "As needed based on soil tests"

/-- Translation of _get_fertilizer_priority (lines 391-399). -/
def fertilizer_priority (stage : String) : String :=
  if stage = "Seedling" then "High"
  else if stage = "Vegetative" then "High"
  else if stage = "Flowering" then "Medium"
  else if stage = "Maturity" then "Low"
  else "Medium"

/-- Translation of _generate_fertilization_recommendations (lines 196-246). -/
def fertilization_recommendations (c : Crop) (stage : String) (month : ℕ) :
    Recommendation :=
  let info := cropData c
  let stage_ferts := flookup info.fertilizer_schedule stage ["Balanced NPK"]
  let details :=
    if stage = "Seedling" then
      ["Use starter fertilizer with higher phosphorus content",
       "Apply at planting or within first 2 weeks",
       "Avoid high nitrogen that can burn young plants",
       "Consider soil test results for precise application rates"]
    else if stage = "Vegetative" then
      ["Apply nitrogen-rich fertilizer to promote leaf and stem growth",
       "Side-dress application recommended for row crops",
       "Split application to reduce nutrient loss",
       "Monitor plants for nitrogen deficiency signs (yellowing leaves)"]
    else if stage = "Flowering" then
      ["Switch to balanced NPK fertilizer",
       "Add micronutrients (zinc, boron, iron) if deficient",
       "Avoid excessive nitrogen that can delay flowering",
       "Apply before peak flowering for maximum benefit"]
    else if stage = "Maturity" then
      ["Reduce or eliminate nitrogen application",
       "Final potassium application to improve grain quality",
       "Avoid fertilizer that delays harvest maturity",
       "Focus on harvest preparation rather than growth"]
    else []
  { action := "Apply " ++ joinSep ", " stage_ferts ++ " suitable for " ++
      stage.toLower ++ " stage"
    timing := fertilizer_timing stage
    priority := fertilizer_priority stage
    reason := stage ++ " stage requires specific nutrients for optimal development"
    details := details }

/-- Translation of _generate_pest_control_recommendations (lines 248-309). -/
def pest_recommendations (c : Crop) (stage : String) (month : ℕ) :
    Recommendation :=
  let info := cropData c
  let seasonal_risk :=
    if month = 5 ∨ month = 6 ∨ month = 7 ∨ month = 8 ∨ month = 9 then "High"
    else if month = 3 ∨ month = 4 ∨ month = 10 then "Medium"
    else "Low"
  let stageDetails :=
    if stage = "Seedling" then
      ["Focus on soil-dwelling pests and cutworms",
       "Use physical barriers or targeted treatments",
       "Monitor for damping-off diseases",
       "Inspect plants every 2-3 days for early detection"]
    else if stage = "Vegetative" then
      ["Scout for leaf-feeding insects and caterpillars",
       "Check undersides of leaves for eggs and larvae",
       "Monitor growth points for damage",
       "Implement beneficial insect habitat if using IPM"]
    else if stage = "Flowering" then
      ["Watch for pollinators before applying any treatments",
       "Focus on flower and developing fruit protection",
       "Monitor for disease symptoms in humid conditions",
       "Avoid spraying during peak pollinator activity"]
    else if stage = "Maturity" then
      ["Inspect for storage pest prevention",
       "Monitor grain moisture to prevent mold",
       "Scout for late-season pests that affect quality",
       "Prepare for post-harvest pest management"]
    else []
  { action := "Monitor for " ++ joinSep ", " (info.common_pests.take 2) ++
      " and other common pests"
    timing := "Weekly scouting recommended during growing season"
    priority := seasonal_risk
    reason := "Seasonal pest pressure is " ++ seasonal_risk.toLower ++
      " for this time of year"
    details := stageDetails ++
      ["Common pests for " ++ cropName c ++ ": " ++
        joinSep ", " info.common_pests] }

/-- Translation of _generate_harvesting_recommendations (lines 311-379). -/
def harvesting_recommendations (c : Crop) (stage : String) (month : ℕ) :
    Recommendation :=
  if stage ≠ "Maturity" then
    { action := "Continue monitoring crop development - not ready for harvest"
      timing := "Harvesting typically begins when crop reaches maturity stage"
      priority := "Low"
      reason := "Crop is currently in " ++ stage.toLower ++ " stage"
      details :=
        ["Monitor crop development daily",
         "Look for signs of maturity (grain color, moisture content)",
         "Prepare harvesting equipment and storage facilities",
         "Plan harvest logistics and labor requirements"] }
  else
    { action := "Crop is approaching harvest readiness - begin harvest preparations"
      timing := "Monitor daily for optimal harvest window"
      priority := "High"
      reason := "Proper timing is critical for maximizing yield and quality"
      details :=
        (match c with
         | .Wheat =>
           ["Check grain moisture content (target: 12-14% for storage)",
            "Test grain hardness and protein content",
            "Monitor weather forecasts for dry harvest conditions",
            "Prepare combine harvester and grain storage facilities"]
         | .Corn =>
           ["Monitor grain moisture (target: 15-20% for field drying)",
            "Check for black layer formation at kernel base",
            "Assess stalk strength to prevent lodging",
            "Prepare for grain drying if moisture is high"]
         | .Rice =>
           ["Check grain filling and color change",
            "Monitor panicle moisture content",
            "Plan for proper field drying before threshing",
            "Prepare threshing and winnowing equipment"]
         | .Soybeans =>
           ["Check pod color and rattle test",
            "Monitor grain moisture (target: 13-15% for storage)",
            "Assess plant maturity uniformity across field",
            "Prepare combine settings for soybean harvest"]) ++
        ["Schedule harvest during optimal weather windows",
         "Coordinate labor and equipment availability",
         "Prepare post-harvest handling and storage systems",
         "Plan for immediate post-harvest field operations"] }

/-- The four categories returned by generate_recommendations. -/
structure Recommendations where
  irrigation : Recommendation
  fertilization : Recommendation
  pest_control : Recommendation
  harvesting : Recommendation
deriving DecidableEq

/-- RecommendationEngine.generate_recommendations (lines 79-122): an
unknown crop-type string silently falls back to Wheat; the date enters
only through its month. -/
def generate_recommendations (crop_type : String) (stage : String)
    (month : ℕ) (region : String) : Recommendations :=
  let c := match parseCrop crop_type with
    | some c => c
    | none => .Wheat
  { irrigation := irrigation_recommendations c stage month region
    fertilization := fertilization_recommendations c stage month
    pest_control := pest_recommendations c stage month
    harvesting := harvesting_recommendations c stage month }

/-- C7: for every crop-type string outside the supported set, predict
fails with the model-not-available error and suitability with the
not-supported error (no partial result in either), while the
recommendation engine silently substitutes Wheat. -/
theorem unsupported_crop_behaviour (crop : String) (h : crop ∉ cropTypes)
    (model : Crop → InputData → ℚ) (importance : Crop → List (String × ℚ))
    (u : ℚ) (farm_area : Option ℚ) (x : InputData) (soil : SoilData)
    (stage : String) (month : ℕ) (region : String) :
    predict_yield model importance u crop farm_area x =
      .error ("Model not available for crop type: " ++ crop) ∧
    analyze_crop_suitability soil crop =
      .error ("Crop type " ++ crop ++ " not supported") ∧
    generate_recommendations crop stage month region =
      generate_recommendations "Wheat" stage month region := by
  have hp : parseCrop crop = none := by
    simp only [cropTypes, List.mem_cons, List.not_mem_nil, or_false,
      not_or] at h
    obtain ⟨h1, h2, h3, h4⟩ := h
    simp [parseCrop, h1, h2, h3, h4]
  refine ⟨?_, ?_, ?_⟩
  · simp [predict_yield, hp]
  · simp [analyze_crop_suitability, hp]
  · have hw : parseCrop "Wheat" = some Crop.Wheat := by simp [parseCrop]
    simp [generate_recommendations, hp, hw]

/-- Witness for C7 at the unsupported crop-type string Banana. -/
theorem unsupported_crop_behaviour_witness :
    "Banana" ∉ cropTypes ∧
    (predict_yield (fun _ _ => 0) (fun _ => []) 0.1 "Banana" none emptyInput =
        .error ("Model not available for crop type: " ++ "Banana") ∧
      analyze_crop_suitability [] "Banana" =
        .error ("Crop type " ++ "Banana" ++ " not supported") ∧
      generate_recommendations "Banana" "Vegetative" 7 "anywhere" =
        generate_recommendations "Wheat" "Vegetative" 7 "anywhere") :=
  ⟨by decide,
    unsupported_crop_behaviour "Banana" (by decide) (fun _ _ => 0)
      (fun _ => []) 0.1 none emptyInput [] "Vegetative" 7 "anywhere"⟩

end CropYield
